import Mathlib

set_option autoImplicit false
set_option maxRecDepth 4000
set_option linter.unusedVariables false

/-
Shallow embedding of the message-processing pipeline of ct.py
(mplawner/channeltranslator).

Modelling conventions:
  * A Python string is a sequence of Unicode codepoints; it is embedded as
    List Char, so length, slicing and concatenation match the codepoint
    semantics of Python (not raw bytes).
  * Wall-clock times (datetime.now values) are abstracted as integers
    measured in minutes, since the code only compares times and subtracts
    a timedelta of PROCESSED_MESSAGE_RETENTION_MINUTES minutes.
  * Every network interaction (chat completion, HTTP POST, googletrans,
    duckduckgo) is represented by an oracle value passed in as an argument:
    none / an error constructor stands for "the call raised", some r stands
    for "the call returned r".  The except-blocks of the source are then
    total case analyses on that oracle.
  * The process-wide dict processed_messages is an association list
    (key, timestamp) threaded explicitly; Python dict iteration order is
    insertion order, which the association list preserves.
-/

namespace ChannelTranslator

/-- Python strings embedded as lists of Unicode codepoints. -/
abbrev PyStr := List Char

/-- The codepoint list of a Lean string literal. -/
def pystr (s : String) : PyStr := s.data

/-- Constant PROCESSED_MESSAGE_RETENTION_MINUTES = 30 of ct.py (line 20). -/
def PROCESSED_MESSAGE_RETENTION_MINUTES : Int := 30

/-- Constant CAPTION_MAX_LENGTH = 1024 of ct.py (line 21). -/
def CAPTION_MAX_LENGTH : Nat := 1024

/-- Strip trailing elements satisfying p, used to model the right half of
Python str.strip(). -/
def stripEnd {α : Type} (p : α → Bool) (l : List α) : List α :=
  (l.reverse.dropWhile p).reverse

/-- Python str.strip(): remove leading and trailing whitespace codepoints. -/
def pyStrip (s : PyStr) : PyStr :=
  stripEnd Char.isWhitespace (s.dropWhile Char.isWhitespace)

/-- Fuel-indexed scanner for Python str.replace(old, new) with new = the empty
string and old nonempty: scan left to right; on a match of old skip its length
and continue after it (occurrences are removed non-overlapping, left to
right); otherwise keep one character and move on.  The fuel argument only
makes the recursion structural; removeAll supplies fuel = length of the
string, which is always sufficient. -/
def removeAllAux (old : PyStr) : Nat → PyStr → PyStr
  | _, [] => []
  | 0, s => s
  | fuel + 1, c :: rest =>
    if old.isPrefixOf (c :: rest) then
      removeAllAux old fuel (rest.drop (old.length - 1))
    else
      c :: removeAllAux old fuel rest

/-- Python text.replace(old, new) for new = the empty string, as used in
filter_common_phrases (ct.py line 54).  In Python, replacing the empty
pattern by the empty string is the identity, so the empty pattern is
dispatched separately. -/
def pyRemove (s old : PyStr) : PyStr :=
  if old = [] then s else removeAllAux old s.length s

/-- Occurrence test: does pat occur as a contiguous substring of the text.
Used to state under which condition a second filtering pass is a no-op. -/
def occursIn (pat : PyStr) : PyStr → Bool
  | [] => pat.isPrefixOf []
  | c :: rest => pat.isPrefixOf (c :: rest) || occursIn pat rest

/-- filter_common_phrases of ct.py (lines 51-55): for each phrase in order,
remove every literal occurrence from the text, then strip the result. -/
def filter_common_phrases (text : PyStr) (common_phrases : List PyStr) : PyStr :=
  pyStrip (common_phrases.foldl pyRemove text)

/-- hash_message of ct.py (lines 151-155) computes the MD5 hex digest of the
message text.  The digest function is deterministic, and the specification
(section 4.2) treats digest collisions as genuine duplicates, so the
fingerprint is modelled as the message text itself: equal texts get equal
fingerprints, which is the only property the dedup claims use. -/
def hash_message (message : PyStr) : PyStr := message

/-- cleanup_processed_messages of ct.py (lines 158-164): delete every cache
entry whose recorded time is strictly older than now minus the retention
window. -/
def cleanup_processed_messages (processed_messages : List (PyStr × Int))
    (now : Int) (retention_minutes : Int) : List (PyStr × Int) :=
  processed_messages.filter (fun kv => !decide (kv.2 < now - retention_minutes))

/-- truncate_caption of ct.py (lines 167-169): keep the caption when its
length is within the limit, otherwise keep the first max_length - 3
codepoints and append the three-dot ellipsis marker. -/
def truncate_caption (caption : PyStr) (max_length : Nat) : PyStr :=
  if caption.length ≤ max_length then caption
  else caption.take (max_length - 3) ++ pystr "..."

/-- The deduplication gate of new_message_handler (ct.py lines 282-290):
run the eviction pass, hash the raw text, reject when the fingerprint is
already cached, otherwise record it with the current time and accept.
Returns (accepted, cache after the call). -/
def dedup_gate (processed_messages : List (PyStr × Int)) (text : PyStr)
    (now : Int) : Bool × List (PyStr × Int) :=
  let cleaned := cleanup_processed_messages processed_messages now
    PROCESSED_MESSAGE_RETENTION_MINUTES
  if hash_message text ∈ cleaned.map Prod.fst then (false, cleaned)
  else (true, cleaned ++ [(hash_message text, now)])

/-- One configured OpenAI-compatible provider together with the outcome of
the chat-completion request the handler would send to it: response = none
means the request raised, response = some c means choices[0].message content
was c. -/
structure ProviderCall where
  api_base : PyStr
  model : PyStr
  key : PyStr
  response : Option PyStr
deriving DecidableEq

/-- translate_with_openai of ct.py (lines 76-95): try each provider in
order; on the first request that does not raise, return the stripped
response content labelled with that provider model; when every provider
raises, return the failure string with no model. -/
def translate_with_openai (text : PyStr) :
    List ProviderCall → PyStr × Option PyStr
  | [] => (pystr "Translation failed.", none)
  | p :: rest =>
    match p.response with
    | some content => (pyStrip content, some p.model)
    | none => translate_with_openai text rest

/-- Outcome of the single DeepL HTTP POST of translate_with_deepl:
ok t is a 2xx response whose JSON body held translations[0].text = t,
httpError is a non-2xx status (raise_for_status raises), badBody is a
malformed JSON body or one missing the expected fields. -/
inductive DeepLHttp where
  | ok (text : PyStr)
  | httpError
  | badBody
deriving DecidableEq

/-- translate_with_deepl of ct.py (lines 98-118).  The second component
counts the HTTP requests performed: a missing (empty) auth key fails
immediately with no request; any fault of the single request is caught and
reported as the failure string. -/
def translate_with_deepl (text : PyStr) (deepl_key : PyStr)
    (http : DeepLHttp) : PyStr × Nat :=
  if deepl_key = [] then (pystr "Translation failed.", 0)
  else
    match http with
    | .ok t => (t, 1)
    | .httpError => (pystr "Translation failed.", 1)
    | .badBody => (pystr "Translation failed.", 1)

/-- translate_with_duckduckgo of ct.py (lines 121-134): the ddgs.chat call
either returns a result or raises, in which case the failure string is
returned. -/
def translate_with_duckduckgo (text : PyStr) (response : Option PyStr) : PyStr :=
  match response with
  | some result => result
  | none => pystr "Translation failed."

/-- translate_with_google of ct.py (lines 137-148): the googletrans call
either returns a translation or raises, in which case the failure string is
returned. -/
def translate_with_google (text : PyStr) (response : Option PyStr) : PyStr :=
  match response with
  | some result => result
  | none => pystr "Translation failed."

/-- Python dict assignment d[k] = v on an insertion-ordered association
list: overwrite in place when the key is present, append otherwise. -/
def dictInsert {α β : Type} [DecidableEq α] (d : List (α × β)) (k : α)
    (v : β) : List (α × β) :=
  if ∃ kv ∈ d, kv.1 = k then
    d.map (fun kv => if kv.1 = k then (kv.1, v) else kv)
  else d ++ [(k, v)]

/-- One section of the configuration file, as read by get_openai_providers:
a field value of none models a missing key (KeyError on lookup); enabled is
config.getboolean('Translators', section, fallback=True). -/
structure ConfigSection where
  name : PyStr
  api_base : Option PyStr
  model : Option PyStr
  key : Option PyStr
  enabled : Bool
deriving DecidableEq

/-- A provider record as appended by get_openai_providers. -/
structure OpenAIProvider where
  api_base : PyStr
  model : PyStr
  key : PyStr
deriving DecidableEq

/-- get_openai_providers of ct.py (lines 58-73): scan the configuration
sections in order; for each section whose name starts with OpenAI, read
api_base, model and key (a KeyError skips the section entirely), append the
provider when enabled, and record the enabled flag under the section name in
translators_enabled (a dict update, hence an append for fresh names). -/
def get_openai_providers :
    List ConfigSection → List (PyStr × Bool) →
      List OpenAIProvider × List (PyStr × Bool)
  | [], translators_enabled => ([], translators_enabled)
  | s :: rest, translators_enabled =>
    if (pystr "OpenAI").isPrefixOf s.name then
      match s.api_base, s.model, s.key with
      | some ab, some mdl, some k =>
        let te2 := dictInsert translators_enabled s.name s.enabled
        let r := get_openai_providers rest te2
        ((if s.enabled then [⟨ab, mdl, k⟩] else []) ++ r.1, r.2)
      | _, _, _ => get_openai_providers rest translators_enabled
    else get_openai_providers rest translators_enabled

/-- The translators_enabled dict as initialized in main (ct.py lines
219-223), in its literal insertion order: DeepL, Google, DuckDuckGo. -/
def initial_translators_enabled (deepl google ddg : Bool) : List (PyStr × Bool) :=
  [(pystr "DeepL", deepl), (pystr "Google", google), (pystr "DuckDuckGo", ddg)]

/-- Lines 219-230 of ct.py: build translators_enabled, then, only when the
OpenAI master switch is on, let get_openai_providers append the
OpenAI-compatible sections after the three fixed entries. -/
def build_translators_enabled (deepl google ddg openai_enabled : Bool)
    (sections : List ConfigSection) :
    List OpenAIProvider × List (PyStr × Bool) :=
  if openai_enabled then
    get_openai_providers sections (initial_translators_enabled deepl google ddg)
  else ([], initial_translators_enabled deepl google ddg)

/-- The per-message outcomes of every network interaction the handler can
perform: the configured OpenAI providers with their responses, the
googletrans response, the DeepL key and HTTP outcome, and the DuckDuckGo
response. -/
structure BackendOutcomes where
  openai_providers : List ProviderCall
  google_response : Option PyStr
  deepl_key : PyStr
  deepl_http : DeepLHttp
  ddg_response : Option PyStr
deriving DecidableEq

/-- The translation loop of new_message_handler (ct.py lines 302-326):
iterate the translators_enabled dict in insertion order; for every enabled
name with nonempty filtered text, attempt that backend: a name starting
with OpenAI records the translation under the returned model name and
breaks out of the loop on success (and records nothing otherwise); Google,
DeepL and DuckDuckGo record their result unconditionally under their own
name and continue.  Returns the digest and the list of attempted provider
names in order. -/
def attempt_translations (oc : BackendOutcomes) (filtered_text : PyStr) :
    List (PyStr × Bool) → List (Option PyStr × PyStr) →
      List (Option PyStr × PyStr) × List PyStr
  | [], translations => (translations, [])
  | (provider_name, enabled) :: rest, translations =>
    if enabled = true ∧ filtered_text ≠ [] then
      if (pystr "OpenAI").isPrefixOf provider_name then
        let r := translate_with_openai filtered_text oc.openai_providers
        if r.1 ≠ pystr "Translation failed." then
          (dictInsert translations r.2 r.1, [provider_name])
        else
          let k := attempt_translations oc filtered_text rest translations
          (k.1, provider_name :: k.2)
      else if provider_name = pystr "Google" then
        let t := translate_with_google filtered_text oc.google_response
        let k := attempt_translations oc filtered_text rest
          (dictInsert translations (some (pystr "Google")) t)
        (k.1, provider_name :: k.2)
      else if provider_name = pystr "DeepL" then
        let t := (translate_with_deepl filtered_text oc.deepl_key oc.deepl_http).1
        let k := attempt_translations oc filtered_text rest
          (dictInsert translations (some (pystr "DeepL")) t)
        (k.1, provider_name :: k.2)
      else if provider_name = pystr "DuckDuckGo" then
        let t := translate_with_duckduckgo filtered_text oc.ddg_response
        let k := attempt_translations oc filtered_text rest
          (dictInsert translations (some (pystr "DuckDuckGo")) t)
        (k.1, provider_name :: k.2)
      else
        let k := attempt_translations oc filtered_text rest translations
        (k.1, provider_name :: k.2)
    else attempt_translations oc filtered_text rest translations

/-- Rendering of a digest key inside the f-string of ct.py line 329: an
absent model (Python None) renders as the four characters None. -/
def renderKey : Option PyStr → PyStr
  | some k => k
  | none => pystr "None"

/-- message_content of ct.py (lines 328-330): the channel attribution header
followed by every digest entry rendered as key, colon, newline, value, the
entries joined by blank lines in digest insertion order. -/
def compose_message (channel_link : PyStr)
    (translations : List (Option PyStr × PyStr)) : PyStr :=
  pystr "From " ++ channel_link ++ pystr ":\n\n" ++
    List.intercalate (pystr "\n\n")
      (translations.map (fun kv => renderKey kv.1 ++ pystr ":\n" ++ kv.2))

/-- channel_link of ct.py line 297. -/
def make_channel_link (channel_username : PyStr) : PyStr :=
  if channel_username ≠ pystr "unknown" then pystr "@" ++ channel_username
  else pystr "Unknown Channel"

/-- The observable pieces of one incoming Telegram event: the raw text
(event.message.text or the empty string), whether media is attached, and
getattr(event.chat, 'username', 'unknown'). -/
structure IncomingEvent where
  text : PyStr
  hasMedia : Bool
  channel_username : PyStr
deriving DecidableEq

/-- How one invocation of new_message_handler ends. -/
inductive HandlerResult where
  | skippedNoText
  | skippedDuplicate
  | sentFile (caption : PyStr)
  | sentMessage (text : PyStr)
deriving DecidableEq

/-- Observable outcome of one invocation of new_message_handler: the
dispatch action, the digest it composed (empty when the message was
skipped), the provider names attempted in order, and the dedup cache after
the call. -/
structure HandlerOutcome where
  result : HandlerResult
  digest : List (Option PyStr × PyStr)
  attempts : List PyStr
  cache : List (PyStr × Int)
deriving DecidableEq

/-- new_message_handler of ct.py (lines 275-347): drop messages whose raw
text strips to nothing (even when media is attached); run the dedup gate
(eviction pass, hash, lookup, insert); filter common phrases; seed the
digest with the Original entry (the filtered text, or Media Post when the
filtered text is empty); run the translation loop; compose the message;
dispatch it as a media file with the truncated caption when media is
present, and as a plain message with the untruncated text otherwise. -/
def new_message_handler (ev : IncomingEvent)
    (processed_messages : List (PyStr × Int)) (now : Int)
    (common_phrases : List PyStr) (translators_enabled : List (PyStr × Bool))
    (oc : BackendOutcomes) : HandlerOutcome :=
  if pyStrip ev.text = [] then ⟨.skippedNoText, [], [], processed_messages⟩
  else
    let g := dedup_gate processed_messages ev.text now
    if g.1 then
      let filtered_text := filter_common_phrases ev.text common_phrases
      let channel_link := make_channel_link ev.channel_username
      let seeded := [(some (pystr "Original"),
        if filtered_text ≠ [] then filtered_text else pystr "Media Post")]
      let r := attempt_translations oc filtered_text translators_enabled seeded
      let message_content := compose_message channel_link r.1
      let caption := truncate_caption message_content CAPTION_MAX_LENGTH
      ⟨if ev.hasMedia then .sentFile caption else .sentMessage message_content,
        r.1, r.2, g.2⟩
    else ⟨.skippedDuplicate, [], [], g.2⟩

/-- Length of the string actually handed to the chat client by the dispatch
step (the caption for send_file, the message text for send_message). -/
def dispatchedLength : HandlerResult → Nat
  | .sentFile caption => caption.length
  | .sentMessage text => text.length
  | _ => 0

/-- Membership in the cleaned cache unfolds to membership in the original
cache together with the retention condition. -/
lemma mem_cleanup {pm : List (PyStr × Int)} {now r : Int} {kv : PyStr × Int} :
    kv ∈ cleanup_processed_messages pm now r ↔ kv ∈ pm ∧ ¬ (kv.2 < now - r) := by
  simp [cleanup_processed_messages, List.mem_filter]

/-- The acceptance bit of the dedup gate is the negation of the fingerprint
lookup in the cleaned cache. -/
lemma dedup_gate_fst (pm : List (PyStr × Int)) (x : PyStr) (now : Int) :
    (dedup_gate pm x now).1
      = !decide (x ∈ (cleanup_processed_messages pm now
          PROCESSED_MESSAGE_RETENTION_MINUTES).map Prod.fst) := by
  by_cases h : x ∈ (cleanup_processed_messages pm now
      PROCESSED_MESSAGE_RETENTION_MINUTES).map Prod.fst <;>
    simp [dedup_gate, hash_message, h]

/-- C1: for any two messages bearing identical raw (pre-filter) text, the
second is rejected as a duplicate when it arrives within the 30-minute
retention window of the recorded time of the first, and accepted again once
the window has elapsed; the eviction pass run before each insertion check
removes exactly the cache entries whose recorded time is strictly older
than now minus 30 minutes. -/
theorem c1_dedup_window (pm0 : List (PyStr × Int)) (x : PyStr) (t1 t2 : Int)
    (pm : List (PyStr × Int)) (now : Int)
    (hacc : (dedup_gate pm0 x t1).1 = true) :
    PROCESSED_MESSAGE_RETENTION_MINUTES = 30
    ∧ (t2 ≤ t1 + 30 → (dedup_gate (dedup_gate pm0 x t1).2 x t2).1 = false)
    ∧ (t1 + 30 < t2 → (dedup_gate (dedup_gate pm0 x t1).2 x t2).1 = true)
    ∧ (∀ kv ∈ cleanup_processed_messages pm now PROCESSED_MESSAGE_RETENTION_MINUTES,
        ¬ (kv.2 < now - 30))
    ∧ (∀ kv ∈ pm, ¬ (kv.2 < now - 30) →
        kv ∈ cleanup_processed_messages pm now PROCESSED_MESSAGE_RETENTION_MINUTES) := by
  by_cases hc :
      x ∈ (cleanup_processed_messages pm0 t1 PROCESSED_MESSAGE_RETENTION_MINUTES).map Prod.fst
  · simp [dedup_gate, hash_message, hc] at hacc
  · have hsnd : (dedup_gate pm0 x t1).2
        = cleanup_processed_messages pm0 t1 PROCESSED_MESSAGE_RETENTION_MINUTES
          ++ [(x, t1)] := by
      simp [dedup_gate, hash_message, hc]
    refine ⟨rfl, ?_, ?_, ?_, ?_⟩
    · intro ht
      have hmem : (x, t1) ∈ cleanup_processed_messages ((dedup_gate pm0 x t1).2) t2
          PROCESSED_MESSAGE_RETENTION_MINUTES := by
        rw [hsnd, mem_cleanup]
        constructor
        · exact List.mem_append_right _ (List.mem_singleton.mpr rfl)
        · simp only [PROCESSED_MESSAGE_RETENTION_MINUTES]
          omega
      have hx : x ∈ (cleanup_processed_messages ((dedup_gate pm0 x t1).2) t2
          PROCESSED_MESSAGE_RETENTION_MINUTES).map Prod.fst :=
        List.mem_map.mpr ⟨(x, t1), hmem, rfl⟩
      rw [dedup_gate_fst]
      simp [hx]
    · intro ht
      have hx : x ∉ (cleanup_processed_messages ((dedup_gate pm0 x t1).2) t2
          PROCESSED_MESSAGE_RETENTION_MINUTES).map Prod.fst := by
        intro hmem
        obtain ⟨kv, hkv, hfst⟩ := List.mem_map.mp hmem
        rw [hsnd, mem_cleanup] at hkv
        obtain ⟨hin, hold⟩ := hkv
        rcases List.mem_append.mp hin with hin1 | hin2
        · exact hc (List.mem_map.mpr ⟨kv, hin1, hfst⟩)
        · have hkv2 : kv = (x, t1) := List.mem_singleton.mp hin2
          rw [hkv2] at hold
          simp only [PROCESSED_MESSAGE_RETENTION_MINUTES] at hold
          omega
      rw [dedup_gate_fst]
      simp [hx]
    · intro kv hkv
      exact ((mem_cleanup.mp hkv).2)
    · intro kv hkv hage
      exact mem_cleanup.mpr ⟨hkv, hage⟩

/-- Concrete instance of the dedup claim: a repeat of the same text 10
minutes later is rejected, a repeat 31 minutes later is accepted. -/
theorem c1_dedup_window_witness :
    (dedup_gate (dedup_gate [] (pystr "msg") 0).2 (pystr "msg") 10).1 = false
    ∧ (dedup_gate (dedup_gate [] (pystr "msg") 0).2 (pystr "msg") 31).1 = true := by
  have h1 := c1_dedup_window [] (pystr "msg") 0 10 [] 0 (by decide)
  have h2 := c1_dedup_window [] (pystr "msg") 0 31 [] 0 (by decide)
  exact ⟨h1.2.1 (by decide), h2.2.2.1 (by decide)⟩

/-- C2: truncate_caption leaves every caption of at most 1024 codepoints
unchanged, and maps every longer caption to its first 1021 codepoints
followed by the three-character ellipsis marker, of length exactly 1024. -/
theorem c2_truncate_exact (caption : PyStr) :
    (caption.length ≤ 1024 → truncate_caption caption CAPTION_MAX_LENGTH = caption)
    ∧ (1024 < caption.length →
        truncate_caption caption CAPTION_MAX_LENGTH
          = caption.take 1021 ++ pystr "..."
        ∧ (truncate_caption caption CAPTION_MAX_LENGTH).length = 1024) := by
  unfold truncate_caption CAPTION_MAX_LENGTH
  constructor
  · intro h
    simp [h]
  · intro h
    rw [if_neg (by omega)]
    have h3 : (pystr "...").length = 3 := by decide
    refine ⟨by norm_num, ?_⟩
    rw [List.length_append, List.length_take, h3]
    omega

/-- Concrete instance of the truncation claim: a short caption is unchanged
and a 1025-character caption is clipped to exactly 1024 characters. -/
theorem c2_truncate_exact_witness :
    truncate_caption (pystr "hi") CAPTION_MAX_LENGTH = pystr "hi"
    ∧ (truncate_caption (List.replicate 1025 'a') CAPTION_MAX_LENGTH).length = 1024 := by
  refine ⟨(c2_truncate_exact (pystr "hi")).1 (by decide), ?_⟩
  exact ((c2_truncate_exact (List.replicate 1025 'a')).2 (by simp)).2

/-- C9: translate_with_deepl answers the failure string with zero HTTP
requests when the auth key is missing, and catches a non-2xx status or a
malformed body of its single request, answering the failure string instead
of raising. -/
theorem c9_deepl_failures (text key : PyStr) (http : DeepLHttp) (hk : key ≠ []) :
    translate_with_deepl text [] http = (pystr "Translation failed.", 0)
    ∧ translate_with_deepl text key .httpError = (pystr "Translation failed.", 1)
    ∧ translate_with_deepl text key .badBody = (pystr "Translation failed.", 1) := by
  refine ⟨rfl, ?_, ?_⟩ <;> simp [translate_with_deepl, hk]

/-- Dropping a prefix never lengthens a list. -/
lemma dropWhile_length_le {α : Type} (p : α → Bool) (l : List α) :
    (l.dropWhile p).length ≤ l.length := by
  induction l with
  | nil => simp
  | cons a t ih =>
    rw [List.dropWhile_cons]
    split
    · exact le_trans ih (Nat.le_succ _)
    · exact le_refl _

/-- dropWhile is idempotent. -/
lemma dropWhile_dropWhile {α : Type} (p : α → Bool) (l : List α) :
    (l.dropWhile p).dropWhile p = l.dropWhile p := by
  induction l with
  | nil => simp
  | cons a t ih =>
    by_cases h : p a = true
    · simp only [List.dropWhile_cons, if_pos h]
      exact ih
    · simp only [List.dropWhile_cons, if_neg h]

/-- When dropWhile leaves a list unchanged it leaves every prefix of that
list unchanged as well. -/
lemma dropWhile_eq_self_append {α : Type} (p : α → Bool) (l₁ l₂ : List α)
    (h : (l₁ ++ l₂).dropWhile p = l₁ ++ l₂) : l₁.dropWhile p = l₁ := by
  cases l₁ with
  | nil => simp
  | cons a t =>
    by_cases hpa : p a = true
    · exfalso
      rw [List.cons_append, List.dropWhile_cons, if_pos hpa] at h
      have hle := dropWhile_length_le p (t ++ l₂)
      rw [h] at hle
      simp at hle
    · simp only [List.dropWhile_cons, if_neg hpa]

/-- dropWhile removes a prefix: the remainder is a suffix of the input. -/
lemma dropWhile_suffix_exists {α : Type} (p : α → Bool) (l : List α) :
    ∃ t, t ++ l.dropWhile p = l := by
  induction l with
  | nil => exact ⟨[], rfl⟩
  | cons a r ih =>
    by_cases hpa : p a = true
    · obtain ⟨t0, h0⟩ := ih
      refine ⟨a :: t0, ?_⟩
      rw [List.dropWhile_cons, if_pos hpa, List.cons_append, h0]
    · exact ⟨[], by rw [List.dropWhile_cons, if_neg hpa]; rfl⟩

/-- stripEnd is idempotent. -/
lemma stripEnd_stripEnd {α : Type} (p : α → Bool) (l : List α) :
    stripEnd p (stripEnd p l) = stripEnd p l := by
  simp [stripEnd, List.reverse_reverse, dropWhile_dropWhile]

/-- stripEnd preserves the property of being unchanged by dropWhile. -/
lemma dropWhile_stripEnd {α : Type} (p : α → Bool) (l : List α)
    (h : l.dropWhile p = l) : (stripEnd p l).dropWhile p = stripEnd p l := by
  obtain ⟨t, ht⟩ := dropWhile_suffix_exists p l.reverse
  have hl : l = stripEnd p l ++ t.reverse := by
    conv_lhs => rw [← List.reverse_reverse l, ← ht]
    rw [List.reverse_append]
    rfl
  apply dropWhile_eq_self_append p (stripEnd p l) t.reverse
  rw [← hl]
  exact h

/-- Python str.strip is idempotent. -/
lemma pyStrip_pyStrip (s : PyStr) : pyStrip (pyStrip s) = pyStrip s := by
  unfold pyStrip
  have h1 : (s.dropWhile Char.isWhitespace).dropWhile Char.isWhitespace
      = s.dropWhile Char.isWhitespace := dropWhile_dropWhile _ s
  have h2 : (stripEnd Char.isWhitespace (s.dropWhile Char.isWhitespace)).dropWhile
        Char.isWhitespace
      = stripEnd Char.isWhitespace (s.dropWhile Char.isWhitespace) :=
    dropWhile_stripEnd _ _ h1
  rw [h2, stripEnd_stripEnd]

/-- The removal scanner is the identity on texts with no occurrence of the
pattern, given enough fuel. -/
lemma removeAllAux_no_occur (pat : PyStr) :
    ∀ (fuel : Nat) (s : PyStr), s.length ≤ fuel → occursIn pat s = false →
      removeAllAux pat fuel s = s := by
  intro fuel
  induction fuel with
  | zero =>
    intro s hl ho
    cases s with
    | nil => rfl
    | cons c r => simp at hl
  | succ n ih =>
    intro s hl ho
    cases s with
    | nil => rfl
    | cons c r =>
      have hb : pat.isPrefixOf (c :: r) = false ∧ occursIn pat r = false := by
        simpa [occursIn] using ho
      rw [removeAllAux, if_neg (by simp [hb.1])]
      have hr : removeAllAux pat n r = r := ih r (by simpa using hl) hb.2
      rw [hr]

/-- pyRemove is the identity on texts with no occurrence of the pattern. -/
lemma pyRemove_no_occur {s pat : PyStr} (h : occursIn pat s = false) :
    pyRemove s pat = s := by
  unfold pyRemove
  by_cases hp : pat = []
  · rw [if_pos hp]
  · rw [if_neg hp]
    exact removeAllAux_no_occur pat s.length s le_rfl h

/-- Folding pyRemove over phrases none of which occur is the identity. -/
lemma foldl_pyRemove_no_occur {y : PyStr} {ps : List PyStr}
    (h : ∀ p ∈ ps, occursIn p y = false) : ps.foldl pyRemove y = y := by
  induction ps with
  | nil => rfl
  | cons p ps ih =>
    rw [List.foldl_cons, pyRemove_no_occur (h p (by simp))]
    exact ih (fun q hq => h q (by simp [hq]))

/-- C8 fails on the code: a single replacement pass can create a fresh
occurrence of a phrase out of the surrounding characters, so a second
filtering pass can remove more.  With phrase list containing only ab, the
text aabb filters once to ab but twice to the empty string. -/
theorem c8_counterexample :
    filter_common_phrases (filter_common_phrases (pystr "aabb") [pystr "ab"])
        [pystr "ab"]
      ≠ filter_common_phrases (pystr "aabb") [pystr "ab"] := by decide

/-- C8 amended: filtering is idempotent exactly on the texts where the first
pass leaves no occurrence of any configured phrase; whenever no phrase of
the list occurs in the once-filtered text, filtering a second time with the
same phrase list returns the once-filtered text unchanged.  (In general a
single pass removes the non-overlapping occurrences left to right but may
create new occurrences, as the counterexample shows.) -/
theorem c8_filter_idempotent_amended (text : PyStr) (phrases : List PyStr)
    (h : ∀ p ∈ phrases, occursIn p (filter_common_phrases text phrases) = false) :
    filter_common_phrases (filter_common_phrases text phrases) phrases
      = filter_common_phrases text phrases := by
  unfold filter_common_phrases at h ⊢
  rw [foldl_pyRemove_no_occur h]
  exact pyStrip_pyStrip (phrases.foldl pyRemove text)

/-- Concrete instance of the amended filtering claim: no phrase occurs in
the once-filtered text, and the second pass changes nothing. -/
theorem c8_filter_idempotent_amended_witness :
    filter_common_phrases (filter_common_phrases (pystr "hello world")
        [pystr "xyz"]) [pystr "xyz"]
      = filter_common_phrases (pystr "hello world") [pystr "xyz"] :=
  c8_filter_idempotent_amended (pystr "hello world") [pystr "xyz"] (by decide)

/-- C5: when the head of the remaining translator list is an enabled
OpenAI-compatible entry and translate_with_openai succeeds, the loop
records the translation under the returned model name and breaks: no
further backend is attempted and the digest gains exactly that one entry;
moreover translate_with_openai labels its result with the model of the
first provider whose request did not raise, skipping providers that
raised. -/
theorem c5_openai_short_circuit (name filtered : PyStr)
    (rest : List (PyStr × Bool)) (oc : BackendOutcomes)
    (d : List (Option PyStr × PyStr)) (a m k c : PyStr) (ps : List ProviderCall)
    (hpre : (pystr "OpenAI").isPrefixOf name = true) (hf : filtered ≠ [])
    (hs : (translate_with_openai filtered oc.openai_providers).1
      ≠ pystr "Translation failed.") :
    attempt_translations oc filtered ((name, true) :: rest) d
      = (dictInsert d (translate_with_openai filtered oc.openai_providers).2
          (translate_with_openai filtered oc.openai_providers).1, [name])
    ∧ translate_with_openai filtered (⟨a, m, k, some c⟩ :: ps) = (pyStrip c, some m)
    ∧ translate_with_openai filtered (⟨a, m, k, none⟩ :: ps)
      = translate_with_openai filtered ps := by
  refine ⟨?_, rfl, rfl⟩
  simp [attempt_translations, hpre, hf, hs]

/-- Concrete instance of the short-circuit claim: with OpenAI succeeding,
the enabled Google backend after it is never attempted and the digest holds
one entry under the provider model name. -/
theorem c5_openai_short_circuit_witness :
    attempt_translations
        ⟨[⟨pystr "https", pystr "gpt", pystr "key", some (pystr " Bonjour ")⟩],
          none, [], DeepLHttp.httpError, none⟩
        (pystr "hello")
        [(pystr "OpenAI", true), (pystr "Google", true)]
        [(some (pystr "Original"), pystr "hello")]
      = ([(some (pystr "Original"), pystr "hello"),
          (some (pystr "gpt"), pystr "Bonjour")], [pystr "OpenAI"]) := by
  rw [(c5_openai_short_circuit (pystr "OpenAI") (pystr "hello")
    [(pystr "Google", true)]
    ⟨[⟨pystr "https", pystr "gpt", pystr "key", some (pystr " Bonjour ")⟩],
      none, [], DeepLHttp.httpError, none⟩
    [(some (pystr "Original"), pystr "hello")]
    (pystr "a") (pystr "m") (pystr "k") (pystr "c") []
    (by decide) (by decide) (by decide)).1]
  decide

/-- C6: each of the three non-OpenAI backends, when enabled at the head of
the remaining translator list and given nonempty filtered text, is
attempted, its result is recorded in the digest under its own name whatever
that result is, and the loop then continues with the remaining backends
regardless of that result; and an internal fault of any of the three
produces exactly the explicit failure placeholder string. -/
theorem c6_fallback_continuation (rest : List (PyStr × Bool)) (filtered : PyStr)
    (oc : BackendOutcomes) (d : List (Option PyStr × PyStr))
    (hf : filtered ≠ []) :
    (attempt_translations oc filtered ((pystr "Google", true) :: rest) d
      = ((attempt_translations oc filtered rest
            (dictInsert d (some (pystr "Google"))
              (translate_with_google filtered oc.google_response))).1,
         pystr "Google" :: (attempt_translations oc filtered rest
            (dictInsert d (some (pystr "Google"))
              (translate_with_google filtered oc.google_response))).2))
    ∧ (attempt_translations oc filtered ((pystr "DeepL", true) :: rest) d
      = ((attempt_translations oc filtered rest
            (dictInsert d (some (pystr "DeepL"))
              (translate_with_deepl filtered oc.deepl_key oc.deepl_http).1)).1,
         pystr "DeepL" :: (attempt_translations oc filtered rest
            (dictInsert d (some (pystr "DeepL"))
              (translate_with_deepl filtered oc.deepl_key oc.deepl_http).1)).2))
    ∧ (attempt_translations oc filtered ((pystr "DuckDuckGo", true) :: rest) d
      = ((attempt_translations oc filtered rest
            (dictInsert d (some (pystr "DuckDuckGo"))
              (translate_with_duckduckgo filtered oc.ddg_response))).1,
         pystr "DuckDuckGo" :: (attempt_translations oc filtered rest
            (dictInsert d (some (pystr "DuckDuckGo"))
              (translate_with_duckduckgo filtered oc.ddg_response))).2))
    ∧ translate_with_google filtered none = pystr "Translation failed."
    ∧ translate_with_duckduckgo filtered none = pystr "Translation failed."
    ∧ (translate_with_deepl filtered oc.deepl_key DeepLHttp.httpError).1
      = pystr "Translation failed." := by
  refine ⟨?_, ?_, ?_, rfl, rfl, ?_⟩
  · simp +decide [attempt_translations, hf]
  · simp +decide [attempt_translations, hf]
  · simp +decide [attempt_translations, hf]
  · by_cases hk : oc.deepl_key = [] <;> simp [translate_with_deepl, hk]

/-- Concrete instance of the fallback continuation claim: DeepL fails with
the placeholder, yet Google is still attempted afterwards and both results
appear in the digest. -/
theorem c6_fallback_continuation_witness :
    attempt_translations ⟨[], some (pystr "ok"), [], DeepLHttp.httpError, none⟩
        (pystr "hi")
        [(pystr "DeepL", true), (pystr "Google", true)]
        [(some (pystr "Original"), pystr "hi")]
      = ([(some (pystr "Original"), pystr "hi"),
          (some (pystr "DeepL"), pystr "Translation failed."),
          (some (pystr "Google"), pystr "ok")],
         [pystr "DeepL", pystr "Google"]) := by
  rw [(c6_fallback_continuation [(pystr "Google", true)] (pystr "hi")
    ⟨[], some (pystr "ok"), [], DeepLHttp.httpError, none⟩
    [(some (pystr "Original"), pystr "hi")] (by decide)).2.1]
  decide

/-- C10: the failure of a backend travels in band as the literal result
string.  A provider response that strips to exactly that string makes
translate_with_openai return it as if every provider had raised, whereupon
the loop omits the digest entry and does not break; and for the Google and
DuckDuckGo variants a service response equal to the string is
indistinguishable from an internal fault, the digest entry being that very
string either way. -/
theorem c10_inband_failure (a m k c : PyStr) (ps : List ProviderCall)
    (name filtered : PyStr) (rest : List (PyStr × Bool)) (oc : BackendOutcomes)
    (d : List (Option PyStr × PyStr))
    (hsvc : pyStrip c = pystr "Translation failed.")
    (hpre : (pystr "OpenAI").isPrefixOf name = true) (hf : filtered ≠ [])
    (hfail : (translate_with_openai filtered oc.openai_providers).1
      = pystr "Translation failed.") :
    translate_with_openai filtered (⟨a, m, k, some c⟩ :: ps)
      = (pystr "Translation failed.", some m)
    ∧ attempt_translations oc filtered ((name, true) :: rest) d
      = ((attempt_translations oc filtered rest d).1,
         name :: (attempt_translations oc filtered rest d).2)
    ∧ translate_with_google filtered (some (pystr "Translation failed."))
      = translate_with_google filtered none
    ∧ translate_with_duckduckgo filtered (some (pystr "Translation failed."))
      = translate_with_duckduckgo filtered none := by
  refine ⟨?_, ?_, rfl, rfl⟩
  · simp [translate_with_openai, hsvc]
  · simp [attempt_translations, hpre, hf, hfail]

/-- Concrete instance of the in-band failure claim: the provider answers
exactly the failure string, the OpenAI entry is omitted, no break happens,
and the following Google backend still runs. -/
theorem c10_inband_failure_witness :
    attempt_translations
        ⟨[⟨pystr "https", pystr "gpt", pystr "key",
            some (pystr " Translation failed. ")⟩],
          some (pystr "ok"), [], DeepLHttp.httpError, none⟩
        (pystr "hi")
        [(pystr "OpenAI", true), (pystr "Google", true)]
        [(some (pystr "Original"), pystr "hi")]
      = ([(some (pystr "Original"), pystr "hi"), (some (pystr "Google"), pystr "ok")],
         [pystr "OpenAI", pystr "Google"]) := by
  rw [(c10_inband_failure (pystr "a") (pystr "m") (pystr "k")
    (pystr " Translation failed. ") []
    (pystr "OpenAI") (pystr "hi") [(pystr "Google", true)]
    ⟨[⟨pystr "https", pystr "gpt", pystr "key",
        some (pystr " Translation failed. ")⟩],
      some (pystr "ok"), [], DeepLHttp.httpError, none⟩
    [(some (pystr "Original"), pystr "hi")]
    (by decide) (by decide) (by decide) (by decide)).2.1]
  decide

/-- Concrete instance of the DeepL failure claim. -/
theorem c9_deepl_failures_witness :
    translate_with_deepl (pystr "t") [] DeepLHttp.httpError
      = (pystr "Translation failed.", 0)
    ∧ translate_with_deepl (pystr "t") (pystr "k") DeepLHttp.badBody
      = (pystr "Translation failed.", 1) := by
  exact ⟨(c9_deepl_failures (pystr "t") (pystr "k") DeepLHttp.httpError (by decide)).1,
         (c9_deepl_failures (pystr "t") (pystr "k") DeepLHttp.httpError (by decide)).2.2⟩

/-- With empty filtered text no backend is ever attempted and the digest is
left as seeded. -/
lemma attempt_translations_empty_text (oc : BackendOutcomes)
    (te : List (PyStr × Bool)) (d : List (Option PyStr × PyStr)) :
    attempt_translations oc [] te d = (d, []) := by
  induction te with
  | nil => rfl
  | cons h rest ih =>
    obtain ⟨n, e⟩ := h
    simp [attempt_translations, ih]

/-- C7 fails on the code: a message whose raw text is empty is dropped by
the first guard of new_message_handler even when media is attached; no
digest is produced, no Media Post entry exists, no backend runs and nothing
is dispatched. -/
theorem c7_counterexample :
    new_message_handler ⟨[], true, pystr "chan"⟩ [] 0 []
        [(pystr "Google", true)] ⟨[], none, [], DeepLHttp.httpError, none⟩
      = ⟨HandlerResult.skippedNoText, [], [], []⟩ := by decide

/-- C7 amended: a message whose raw text is empty or whitespace-only is
dropped before anything else happens, media or not.  The Media Post digest
arises on the other path the claim describes: when the raw text is
non-blank but the phrase filter removes all of it, the digest Original
entry is the literal Media Post, no backend is attempted, and a message
bearing media is dispatched as a file with the composed caption. -/
theorem c7_media_post_amended (ev : IncomingEvent) (pm : List (PyStr × Int))
    (now : Int) (phrases : List PyStr) (te : List (PyStr × Bool))
    (oc : BackendOutcomes)
    (hstrip : pyStrip ev.text ≠ [])
    (hacc : (dedup_gate pm ev.text now).1 = true)
    (hfilt : filter_common_phrases ev.text phrases = [])
    (hmedia : ev.hasMedia = true) :
    (new_message_handler ev pm now phrases te oc).digest
      = [(some (pystr "Original"), pystr "Media Post")]
    ∧ (new_message_handler ev pm now phrases te oc).attempts = []
    ∧ (new_message_handler ev pm now phrases te oc).result
      = HandlerResult.sentFile (truncate_caption
          (compose_message (make_channel_link ev.channel_username)
            [(some (pystr "Original"), pystr "Media Post")])
          CAPTION_MAX_LENGTH) := by
  refine ⟨?_, ?_, ?_⟩ <;>
    simp [new_message_handler, hstrip, hacc, hfilt, hmedia,
      attempt_translations_empty_text]

/-- Concrete instance of the amended Media Post claim: the raw text abc is
entirely removed by the phrase filter, the Original entry is Media Post, no
backend is attempted although Google is enabled. -/
theorem c7_media_post_amended_witness :
    (new_message_handler ⟨pystr "abc", true, pystr "chan"⟩ [] 0 [pystr "abc"]
        [(pystr "Google", true)] ⟨[], none, [], DeepLHttp.httpError, none⟩).digest
      = [(some (pystr "Original"), pystr "Media Post")]
    ∧ (new_message_handler ⟨pystr "abc", true, pystr "chan"⟩ [] 0 [pystr "abc"]
        [(pystr "Google", true)] ⟨[], none, [], DeepLHttp.httpError, none⟩).attempts
      = [] := by
  have h := c7_media_post_amended ⟨pystr "abc", true, pystr "chan"⟩ [] 0
    [pystr "abc"] [(pystr "Google", true)] ⟨[], none, [], DeepLHttp.httpError, none⟩
    (by decide) (by decide) (by decide) rfl
  exact ⟨h.1, h.2.1⟩

/-- The truncated caption never exceeds 1024 codepoints. -/
lemma truncate_caption_length_le (c : PyStr) :
    (truncate_caption c CAPTION_MAX_LENGTH).length ≤ 1024 := by
  unfold truncate_caption CAPTION_MAX_LENGTH
  by_cases h : c.length ≤ 1024
  · rw [if_pos h]
    exact h
  · rw [if_neg h]
    rw [List.length_append, List.length_take]
    have h3 : (pystr "...").length = 3 := by decide
    rw [h3]
    omega

/-- The truncated caption of an over-long composition has length exactly
1024 codepoints. -/
lemma truncate_caption_length_eq {c : PyStr} (h : 1024 < c.length) :
    (truncate_caption c CAPTION_MAX_LENGTH).length = 1024 := by
  unfold truncate_caption CAPTION_MAX_LENGTH
  rw [if_neg (by omega)]
  rw [List.length_append, List.length_take]
  have h3 : (pystr "...").length = 3 := by decide
  rw [h3]
  omega

set_option maxRecDepth 100000 in
/-- C3 fails on the code: a message without media is dispatched through
send_message with the untruncated message_content; with a 1200-character
text the dispatched string has 1223 characters, beyond the 1024 bound the
claim asserts for every dispatched string. -/
theorem c3_counterexample :
    1024 < dispatchedLength (new_message_handler
        ⟨List.replicate 1200 'a', false, pystr "chan"⟩ [] 0 [] []
        ⟨[], none, [], DeepLHttp.httpError, none⟩).result := by decide

/-- C3 amended: only the media path truncates.  When media is present the
dispatched caption is the truncated composition, of length at most 1024 and
exactly 1024 whenever the unclipped composition exceeds 1024; when no media
is present the dispatched string is the untruncated composition itself,
whatever its length. -/
theorem c3_dispatch_amended (ev : IncomingEvent) (pm : List (PyStr × Int))
    (now : Int) (phrases : List PyStr) (te : List (PyStr × Bool))
    (oc : BackendOutcomes)
    (hstrip : pyStrip ev.text ≠ [])
    (hacc : (dedup_gate pm ev.text now).1 = true) :
    (ev.hasMedia = true →
      (new_message_handler ev pm now phrases te oc).result
        = HandlerResult.sentFile (truncate_caption
            (compose_message (make_channel_link ev.channel_username)
              (new_message_handler ev pm now phrases te oc).digest)
            CAPTION_MAX_LENGTH)
      ∧ dispatchedLength (new_message_handler ev pm now phrases te oc).result ≤ 1024
      ∧ (1024 < (compose_message (make_channel_link ev.channel_username)
            (new_message_handler ev pm now phrases te oc).digest).length →
          dispatchedLength (new_message_handler ev pm now phrases te oc).result
            = 1024))
    ∧ (ev.hasMedia = false →
      (new_message_handler ev pm now phrases te oc).result
        = HandlerResult.sentMessage (compose_message
            (make_channel_link ev.channel_username)
            (new_message_handler ev pm now phrases te oc).digest)) := by
  by_cases hm : ev.hasMedia = true
  · have hres : (new_message_handler ev pm now phrases te oc).result
        = HandlerResult.sentFile (truncate_caption
            (compose_message (make_channel_link ev.channel_username)
              (new_message_handler ev pm now phrases te oc).digest)
            CAPTION_MAX_LENGTH) := by
      simp [new_message_handler, hstrip, hacc, hm]
    refine ⟨fun _ => ⟨hres, ?_, fun hlong => ?_⟩,
      fun hmf => absurd hm (by simp [hmf])⟩
    · rw [hres]
      simp only [dispatchedLength]
      exact truncate_caption_length_le _
    · rw [hres]
      simp only [dispatchedLength]
      exact truncate_caption_length_eq hlong
  · have hmf : ev.hasMedia = false := by simpa using hm
    refine ⟨fun hmt => absurd hmt hm, fun _ => ?_⟩
    simp [new_message_handler, hstrip, hacc, hmf]

/-- Concrete instance of the amended dispatch claim: with media attached the
dispatched caption length stays within 1024; without media the full
composition is dispatched. -/
theorem c3_dispatch_amended_witness :
    dispatchedLength (new_message_handler ⟨pystr "hi", true, pystr "chan"⟩ [] 0 []
        [] ⟨[], none, [], DeepLHttp.httpError, none⟩).result ≤ 1024
    ∧ (new_message_handler ⟨pystr "hi", false, pystr "chan"⟩ [] 0 []
        [] ⟨[], none, [], DeepLHttp.httpError, none⟩).result
      = HandlerResult.sentMessage (compose_message
          (make_channel_link (pystr "chan"))
          (new_message_handler ⟨pystr "hi", false, pystr "chan"⟩ [] 0 []
            [] ⟨[], none, [], DeepLHttp.httpError, none⟩).digest) := by
  constructor
  · exact ((c3_dispatch_amended ⟨pystr "hi", true, pystr "chan"⟩ [] 0 [] []
      ⟨[], none, [], DeepLHttp.httpError, none⟩ (by decide) (by decide)).1 rfl).2.1
  · exact (c3_dispatch_amended ⟨pystr "hi", false, pystr "chan"⟩ [] 0 [] []
      ⟨[], none, [], DeepLHttp.httpError, none⟩ (by decide) (by decide)).2 rfl

/-- For a configuration with the single section OpenAI carrying all three
keys, translators_enabled comes out as the three fixed entries DeepL,
Google, DuckDuckGo followed, only when the master switch is on, by the
OpenAI entry appended last. -/
lemma build_te_single (bd bg bddg boa : Bool) (a m k : PyStr) :
    build_translators_enabled bd bg bddg boa
        [⟨pystr "OpenAI", some a, some m, some k, true⟩]
      = ((if boa then [(⟨a, m, k⟩ : OpenAIProvider)] else []),
         [(pystr "DeepL", bd), (pystr "Google", bg), (pystr "DuckDuckGo", bddg)]
           ++ (if boa then [(pystr "OpenAI", true)] else [])) := by
  cases boa <;>
    simp +decide [build_translators_enabled, get_openai_providers,
      initial_translators_enabled, dictInsert]

/-- C4 fails on the code: with every backend enabled, the loop follows the
dict insertion order DeepL, Google, DuckDuckGo and only then the OpenAI
section appended by get_openai_providers, not the order the claim states;
the digest entries follow the same order after Original (here OpenAI
exhausts its providers, so it contributes no entry). -/
theorem c4_counterexample :
    ((attempt_translations
        ⟨[], some (pystr "g"), pystr "kk", DeepLHttp.ok (pystr "d"), some (pystr "x")⟩
        (pystr "hello")
        ((build_translators_enabled true true true true
          [⟨pystr "OpenAI", some (pystr "u"), some (pystr "gpt"),
            some (pystr "key"), true⟩]).2)
        [(some (pystr "Original"), pystr "hello")]).2
      = [pystr "DeepL", pystr "Google", pystr "DuckDuckGo", pystr "OpenAI"])
    ∧ ((attempt_translations
        ⟨[], some (pystr "g"), pystr "kk", DeepLHttp.ok (pystr "d"), some (pystr "x")⟩
        (pystr "hello")
        ((build_translators_enabled true true true true
          [⟨pystr "OpenAI", some (pystr "u"), some (pystr "gpt"),
            some (pystr "key"), true⟩]).2)
        [(some (pystr "Original"), pystr "hello")]).1.map Prod.fst
      = [some (pystr "Original"), some (pystr "DeepL"), some (pystr "Google"),
         some (pystr "DuckDuckGo")])
    ∧ [pystr "DeepL", pystr "Google", pystr "DuckDuckGo", pystr "OpenAI"]
      ≠ [pystr "OpenAI", pystr "Google", pystr "DeepL", pystr "DuckDuckGo"] := by
  refine ⟨by decide, by decide, by decide⟩

/-- C4 amended: the orchestrator attempts the enabled backends in the fixed
dict insertion order DeepL first, then Google, then DuckDuckGo, with the
enabled OpenAI-compatible section appended after them by
get_openai_providers and hence attempted last, and the digest translation
entries appear in that same attempt order after the Original entry, the
OpenAI entry present exactly when its call succeeds and keyed by the
returned model name (assumed distinct from the four fixed keys). -/
theorem c4_backend_order_amended (bd bg bddg boa : Bool) (a m k : PyStr)
    (oc : BackendOutcomes) (orig filtered : PyStr) (hf : filtered ≠ [])
    (hfresh : (translate_with_openai filtered oc.openai_providers).2
      ∉ [some (pystr "Original"), some (pystr "DeepL"), some (pystr "Google"),
         some (pystr "DuckDuckGo")]) :
    (build_translators_enabled bd bg bddg boa
        [⟨pystr "OpenAI", some a, some m, some k, true⟩]).2
      = [(pystr "DeepL", bd), (pystr "Google", bg), (pystr "DuckDuckGo", bddg)]
        ++ (if boa then [(pystr "OpenAI", true)] else [])
    ∧ (attempt_translations oc filtered
        ((build_translators_enabled bd bg bddg boa
          [⟨pystr "OpenAI", some a, some m, some k, true⟩]).2)
        [(some (pystr "Original"), orig)]).2
      = (if bd then [pystr "DeepL"] else []) ++ (if bg then [pystr "Google"] else [])
        ++ (if bddg then [pystr "DuckDuckGo"] else [])
        ++ (if boa then [pystr "OpenAI"] else [])
    ∧ (attempt_translations oc filtered
        ((build_translators_enabled bd bg bddg boa
          [⟨pystr "OpenAI", some a, some m, some k, true⟩]).2)
        [(some (pystr "Original"), orig)]).1
      = [(some (pystr "Original"), orig)]
        ++ (if bd then [(some (pystr "DeepL"),
            (translate_with_deepl filtered oc.deepl_key oc.deepl_http).1)] else [])
        ++ (if bg then [(some (pystr "Google"),
            translate_with_google filtered oc.google_response)] else [])
        ++ (if bddg then [(some (pystr "DuckDuckGo"),
            translate_with_duckduckgo filtered oc.ddg_response)] else [])
        ++ (if boa ∧ (translate_with_openai filtered oc.openai_providers).1
              ≠ pystr "Translation failed."
            then [((translate_with_openai filtered oc.openai_providers).2,
                   (translate_with_openai filtered oc.openai_providers).1)]
            else []) := by
  have h1 : some (pystr "Original")
      ≠ (translate_with_openai filtered oc.openai_providers).2 :=
    fun he => hfresh (by rw [← he]; simp)
  have h2 : some (pystr "DeepL")
      ≠ (translate_with_openai filtered oc.openai_providers).2 :=
    fun he => hfresh (by rw [← he]; simp)
  have h3 : some (pystr "Google")
      ≠ (translate_with_openai filtered oc.openai_providers).2 :=
    fun he => hfresh (by rw [← he]; simp)
  have h4 : some (pystr "DuckDuckGo")
      ≠ (translate_with_openai filtered oc.openai_providers).2 :=
    fun he => hfresh (by rw [← he]; simp)
  have hte2 : (build_translators_enabled bd bg bddg boa
        [⟨pystr "OpenAI", some a, some m, some k, true⟩]).2
      = [(pystr "DeepL", bd), (pystr "Google", bg), (pystr "DuckDuckGo", bddg)]
        ++ (if boa then [(pystr "OpenAI", true)] else []) := by
    rw [build_te_single]
  have hcore : attempt_translations oc filtered
      ([(pystr "DeepL", bd), (pystr "Google", bg), (pystr "DuckDuckGo", bddg)]
        ++ (if boa then [(pystr "OpenAI", true)] else []))
      [(some (pystr "Original"), orig)]
      = ([(some (pystr "Original"), orig)]
          ++ (if bd then [(some (pystr "DeepL"),
              (translate_with_deepl filtered oc.deepl_key oc.deepl_http).1)] else [])
          ++ (if bg then [(some (pystr "Google"),
              translate_with_google filtered oc.google_response)] else [])
          ++ (if bddg then [(some (pystr "DuckDuckGo"),
              translate_with_duckduckgo filtered oc.ddg_response)] else [])
          ++ (if boa ∧ (translate_with_openai filtered oc.openai_providers).1
                ≠ pystr "Translation failed."
              then [((translate_with_openai filtered oc.openai_providers).2,
                     (translate_with_openai filtered oc.openai_providers).1)]
              else []),
         (if bd then [pystr "DeepL"] else [])
          ++ (if bg then [pystr "Google"] else [])
          ++ (if bddg then [pystr "DuckDuckGo"] else [])
          ++ (if boa then [pystr "OpenAI"] else [])) := by
    by_cases hS : (translate_with_openai filtered oc.openai_providers).1
        = pystr "Translation failed." <;>
      cases bd <;> cases bg <;> cases bddg <;> cases boa <;>
        simp +decide [attempt_translations, hf, hS, dictInsert, h1, h2, h3, h4]
  refine ⟨hte2, ?_, ?_⟩
  · rw [hte2, hcore]
  · rw [hte2, hcore]

/-- Concrete instance of the amended ordering claim: DeepL and Google
enabled, DuckDuckGo disabled, OpenAI enabled and succeeding; the attempt
order is DeepL, Google, then OpenAI last. -/
theorem c4_backend_order_amended_witness :
    (attempt_translations
        ⟨[⟨pystr "u", pystr "gpt", pystr "key", some (pystr " hi ")⟩],
          some (pystr "g"), pystr "kk", DeepLHttp.ok (pystr "d"), none⟩
        (pystr "hello")
        ((build_translators_enabled true true false true
          [⟨pystr "OpenAI", some (pystr "u"), some (pystr "gpt"),
            some (pystr "key"), true⟩]).2)
        [(some (pystr "Original"), pystr "hello")]).2
      = [pystr "DeepL", pystr "Google", pystr "OpenAI"] := by
  rw [(c4_backend_order_amended true true false true (pystr "u") (pystr "gpt")
    (pystr "key")
    ⟨[⟨pystr "u", pystr "gpt", pystr "key", some (pystr " hi ")⟩],
      some (pystr "g"), pystr "kk", DeepLHttp.ok (pystr "d"), none⟩
    (pystr "hello") (pystr "hello") (by decide) (by decide)).2.1]
  decide

end ChannelTranslator
